import Mathlib

/-!
Verification of the clinical decision-support core of the HealthCare-DB
repository: the drug-interaction checker (`app/services/drug_checker.py`),
the prescription suggestion engine (`app/services/prescription_ai.py`) and
the semantic retrieval service (`app/services/rag_service.py`).

Python code is shallowly embedded: module-level constant tables become Lean
lists, dictionaries become association lists, the external LLM backend is an
explicit oracle parameter (`Option` of the parsed payload: `none` covers
"backend unavailable", "call failed" and "response unparsable", which all
take the same no-op branch in the source), and float vectors are modelled
over `ℝ`.  Code that can raise is modelled in `Except`.
-/

namespace HealthDB

/-! ### Drug interaction checker: data (drug_checker.py, lines 7-58) -/

/-- `KNOWN_INTERACTIONS`: key pair ↦ (severity, warning). -/
def KNOWN_INTERACTIONS : List ((String × String) × String × String) :=
  [ (("warfarin", "aspirin"), ("high",
      "Increased risk of bleeding. Both drugs affect blood clotting.")),
    (("warfarin", "ibuprofen"), ("high",
      "NSAIDs increase bleeding risk with warfarin.")),
    (("metformin", "alcohol"), ("moderate",
      "Alcohol can increase risk of lactic acidosis with metformin.")),
    (("lisinopril", "potassium"), ("moderate",
      "ACE inhibitors can increase potassium levels. Monitor closely.")),
    (("simvastatin", "grapefruit"), ("moderate",
      "Grapefruit can increase statin levels, raising risk of side effects.")),
    (("methotrexate", "ibuprofen"), ("high",
      "NSAIDs can increase methotrexate toxicity.")),
    (("ssri", "maoi"), ("critical",
      "Serotonin syndrome risk. Never combine SSRIs with MAOIs.")),
    (("fluoxetine", "tramadol"), ("high",
      "Risk of serotonin syndrome and seizures.")),
    (("ciprofloxacin", "antacids"), ("moderate",
      "Antacids reduce ciprofloxacin absorption. Take 2 hours apart.")),
    (("digoxin", "amiodarone"), ("high",
      "Amiodarone increases digoxin levels. Reduce digoxin dose.")) ]

/-- `DRUG_CLASSES`: class name ↦ member drugs. -/
def DRUG_CLASSES : List (String × List String) :=
  [ ("ssri", ["fluoxetine", "sertraline", "paroxetine", "citalopram", "escitalopram"]),
    ("maoi", ["phenelzine", "tranylcypromine", "selegiline"]),
    ("nsaid", ["ibuprofen", "naproxen", "diclofenac", "celecoxib", "aspirin"]),
    ("statin", ["simvastatin", "atorvastatin", "rosuvastatin", "pravastatin"]),
    ("ace_inhibitor", ["lisinopril", "enalapril", "ramipril", "captopril"]),
    ("blood_thinner", ["warfarin", "heparin", "rivaroxaban", "apixaban"]) ]

/-- One warning dictionary appended to `result["warnings"]`. -/
structure Finding where
  drugs : List String
  severity : String
  warning : String
  source : String
  deriving DecidableEq, Repr

/-- Dictionary lookup `table[key]` / `key in table` on the interaction table
(Python dict, keyed by ordered string pairs). -/
def tableLookup (table : List ((String × String) × String × String))
    (k : String × String) : Option (String × String) :=
  match table with
  | [] => none
  | e :: rest => if e.1 = k then some e.2 else tableLookup rest k

/-- Python `str.lower()` (ASCII case mapping, as in Lean's `Char.toLower`). -/
def lowerStr (s : String) : String :=
  ⟨s.data.map Char.toLower⟩

/-- Drop leading whitespace characters. -/
def dropLeadingWs : List Char → List Char
  | [] => []
  | c :: cs => if c.isWhitespace then dropLeadingWs cs else c :: cs

/-- Python `str.strip()`: drop leading and trailing whitespace. -/
def stripStr (s : String) : String :=
  ⟨(dropLeadingWs (dropLeadingWs s.data.reverse).reverse)⟩

/-- `_normalize_drug_name`: `drug.lower().strip()`. -/
def normalizeDrugName (drug : String) : String :=
  stripStr (lowerStr drug)

/-- `_get_drug_class`: first class whose member list contains the
normalized drug. -/
def getDrugClass (drug : String) : Option String :=
  (DRUG_CLASSES.find? (fun c => c.2.contains (normalizeDrugName drug))).map (·.1)

/-- The candidate list scanned by `_check_known_interactions`: normalized
drugs, followed by the class name of each drug that has one. -/
def withClasses (medications : List String) : List String :=
  let normalized := medications.map normalizeDrugName
  normalized ++ normalized.filterMap getDrugClass

/-- One step of the pairwise scan: check `(drug1, drug2)` then
`(drug2, drug1)` against the table, producing a database finding on a hit. -/
def checkPair (table : List ((String × String) × String × String))
    (drug1 drug2 : String) : Option Finding :=
  match tableLookup table (drug1, drug2) with
  | some sw => some ⟨[drug1, drug2], sw.1, sw.2, "database"⟩
  | none =>
    match tableLookup table (drug2, drug1) with
    | some sw => some ⟨[drug1, drug2], sw.1, sw.2, "database"⟩
    | none => none

/-- The doubly-nested loop `for i, drug1 in enumerate(with_classes): for
drug2 in with_classes[i+1:]`. -/
def pairScan (table : List ((String × String) × String × String)) :
    List String → List Finding
  | [] => []
  | d1 :: rest => rest.filterMap (checkPair table d1) ++ pairScan table rest

/-- `_check_known_interactions` generalized over the rule table. -/
def checkKnownInteractionsT (table : List ((String × String) × String × String))
    (medications : List String) : List Finding :=
  pairScan table (withClasses medications)

/-! ### Substring matching (Python `x in y` on strings) -/

/-- `startsWithChars pat s`: `s` begins with `pat`. -/
def startsWithChars : List Char → List Char → Bool
  | [], _ => true
  | _ :: _, [] => false
  | p :: ps, c :: cs => p = c && startsWithChars ps cs

/-- `hasSubChars pat s`: `pat` occurs contiguously inside `s`. -/
def hasSubChars (pat : List Char) : List Char → Bool
  | [] => startsWithChars pat []
  | c :: cs => startsWithChars pat (c :: cs) || hasSubChars pat cs

/-- Python `needle in hay` for strings. -/
def strHasSub (needle hay : String) : Bool :=
  hasSubChars needle.data hay.data

/-! ### Allergy cross-check (drug_checker.py, lines 210-221) -/

/-- The guard `allergy_lower in med.lower() or med.lower() in allergy_lower`. -/
def allergyMatch (allergy med : String) : Bool :=
  strHasSub (lowerStr allergy) (lowerStr med) ||
    strHasSub (lowerStr med) (lowerStr allergy)

/-- The warning dictionary built for a matching (allergy, medication) pair. -/
def mkAllergyFinding (allergy med : String) : Finding :=
  ⟨[med], "critical", "Patient has documented allergy to " ++ allergy ++ "!",
    "allergy_check"⟩

/-- The nested loop over declared allergies and medications. -/
def allergyFindings (allergies medications : List String) : List Finding :=
  (allergies.map (fun a =>
    medications.filterMap (fun m =>
      if allergyMatch a m then some (mkAllergyFinding a m) else none))).flatten

/-! ### LLM oracle and merge (drug_checker.py, lines 223-251) -/

/-- One entry of the parsed `interactions` array of the LLM reply. -/
structure LlmInteraction where
  drugs : List String
  severity : String
  warning : String
  deriving DecidableEq, Repr

/-- The successfully parsed JSON payload of `_check_with_llm`. -/
structure LlmData where
  interactions : List LlmInteraction
  allergyConcerns : List String
  generalAdvice : String
  deriving DecidableEq, Repr

/-- Lexicographic `≤` on strings by code points (Python string comparison). -/
def strLeChars : List Char → List Char → Bool
  | [], _ => true
  | _ :: _, [] => false
  | a :: as, b :: bs => if a = b then strLeChars as bs else decide (a < b)

/-- Ordered insertion of a string into a sorted list. -/
def insertStr (s : String) : List String → List String
  | [] => [s]
  | t :: ts => if strLeChars s.data t.data then s :: t :: ts else t :: insertStr s ts

/-- Python `sorted` on a list of strings (insertion sort; equal strings are
indistinguishable values, so this produces the same list as any stable sort
by the code-point order). -/
def sortStrings (l : List String) : List String :=
  l.foldr insertStr []

/-- `tuple(sorted(w["drugs"]))` for each already-recorded two-drug finding. -/
def existingPairs (warnings : List Finding) : List (List String) :=
  (warnings.filter (fun w => w.drugs.length == 2)).map (fun w => sortStrings w.drugs)

/-- The loop appending LLM-found interactions, deduplicated against the
pair set computed once from the warnings recorded so far. -/
def aiInteractionFindings (pairs : List (List String))
    (interactions : List LlmInteraction) : List Finding :=
  interactions.filterMap (fun i =>
    if !(pairs.contains (sortStrings i.drugs)) && i.drugs.length == 2 then
      some ⟨i.drugs, i.severity, i.warning, "ai_analysis"⟩
    else none)

/-- The loop appending non-empty free-form `allergy_concerns` strings. -/
def aiConcernFindings (concerns : List String) : List Finding :=
  concerns.filterMap (fun c =>
    if !(c == "") then some ⟨[], "moderate", c, "ai_analysis"⟩ else none)

/-! ### Severity resolution (drug_checker.py, lines 253-262) -/

/-- The `severities` rank dictionary. -/
def severityTable : List (String × Nat) :=
  [("none", 0), ("low", 1), ("moderate", 2), ("high", 3), ("critical", 4)]

/-- `severities.get(sev, 0)`. -/
def sevRank (sev : String) : Nat :=
  match severityTable.find? (fun e => e.1 = sev) with
  | some e => e.2
  | none => 0

/-- One iteration of the maximum-severity loop:
`if severities.get(sev, 0) > severities.get(max_severity, 0)`. -/
def sevStep (acc : String) (w : Finding) : String :=
  if sevRank acc < sevRank w.severity then w.severity else acc

/-- The maximum-severity fold over the warnings list, starting from `"none"`. -/
def resolveSeverity (warnings : List Finding) : String :=
  warnings.foldl sevStep "none"

/-! ### check_interactions (drug_checker.py, lines 174-264) -/

/-- The result dictionary of `check_interactions`.  The zero-medication
short-circuit omits the `patient_allergies` and `general_advice` keys; that
is modelled as `[]` / `none` here. -/
structure CheckResult where
  medicationsChecked : List String
  patientAllergies : List String
  warnings : List Finding
  severity : String
  safe : Bool
  generalAdvice : Option String
  deriving DecidableEq, Repr

/-- `check_interactions`, generalized over the interaction rule table and
over the LLM oracle.  `llm = some d` models: `use_llm` requested, backend
available, call succeeded and the reply parsed to `d`; `llm = none` models
every other outcome of the LLM step (all of which add nothing). -/
def checkInteractionsT (table : List ((String × String) × String × String))
    (llm : Option LlmData) (medications allergies : List String)
    (useLlm : Bool) : CheckResult :=
  if medications = [] then
    { medicationsChecked := [], patientAllergies := [], warnings := [],
      severity := "none", safe := true, generalAdvice := none }
  else
    let known := checkKnownInteractionsT table medications
    let base := known ++ allergyFindings allergies medications
    let merged :=
      if useLlm then
        match llm with
        | some d =>
          (base ++ aiInteractionFindings (existingPairs base) d.interactions
             ++ aiConcernFindings d.allergyConcerns,
           some d.generalAdvice)
        | none => (base, none)
      else (base, none)
    let maxSev := resolveSeverity merged.1
    { medicationsChecked := medications, patientAllergies := allergies,
      warnings := merged.1, severity := maxSev,
      safe := (["none", "low"] : List String).contains maxSev,
      generalAdvice := merged.2 }

/-- `check_interactions` with the repository's rule table. -/
def checkInteractions (llm : Option LlmData) (medications allergies : List String)
    (useLlm : Bool) : CheckResult :=
  checkInteractionsT KNOWN_INTERACTIONS llm medications allergies useLlm

/-! ### General list helper -/

/-- A `filterMap` whose function is a guarded `some` is a `filter` then `map`. -/
theorem filterMap_guard_eq_filter_map (p : α → Bool) (f : α → β) (l : List α) :
    l.filterMap (fun m => if p m then some (f m) else none) = (l.filter p).map f := by
  induction l with
  | nil => rfl
  | cons x xs ih =>
    by_cases h : p x <;>
      simp [List.filterMap_cons, List.filter_cons, h, ih]

/-! ### Facts about the pairwise rule scan -/

/-- A hit of `checkPair` records exactly the scanned pair, tagged `database`. -/
theorem checkPair_eq {t : List ((String × String) × String × String)}
    {d1 d2 : String} {w : Finding} (h : checkPair t d1 d2 = some w) :
    w.drugs = [d1, d2] ∧ w.source = "database" := by
  unfold checkPair at h
  split at h
  · cases h; exact ⟨rfl, rfl⟩
  · split at h
    · cases h; exact ⟨rfl, rfl⟩
    · cases h

/-- Every finding emitted by the pairwise scan names two (not necessarily
distinct) candidates from the scanned list and carries source `database`. -/
theorem mem_pairScan {t : List ((String × String) × String × String)}
    {l : List String} {w : Finding} (h : w ∈ pairScan t l) :
    (∃ a b, w.drugs = [a, b] ∧ a ∈ l ∧ b ∈ l) ∧ w.source = "database" := by
  induction l with
  | nil => simp [pairScan] at h
  | cons d rest ih =>
    rw [pairScan] at h
    rcases List.mem_append.mp h with hblk | htl
    · obtain ⟨d2, hd2, hcp⟩ := List.mem_filterMap.mp hblk
      obtain ⟨hd, hs⟩ := checkPair_eq hcp
      exact ⟨⟨d, d2, hd, List.mem_cons_self d rest, List.mem_cons_of_mem d hd2⟩, hs⟩
    · obtain ⟨⟨a, b, hd, ha, hb⟩, hs⟩ := ih htl
      exact ⟨⟨a, b, hd, List.mem_cons_of_mem d ha, List.mem_cons_of_mem d hb⟩, hs⟩

/-! ### Facts about the allergy cross-check -/

/-- The allergy loop, rephrased as filter-then-map. -/
theorem allergyFindings_eq (al meds : List String) :
    allergyFindings al meds =
      (al.map (fun a => (meds.filter (allergyMatch a)).map (mkAllergyFinding a))).flatten := by
  unfold allergyFindings
  simp only [filterMap_guard_eq_filter_map]

/-- Shape of every allergy-check finding. -/
theorem mem_allergyFindings {al meds : List String} {w : Finding}
    (h : w ∈ allergyFindings al meds) :
    w.source = "allergy_check" ∧ w.severity = "critical" ∧ w.drugs.length = 1 := by
  rw [allergyFindings_eq] at h
  obtain ⟨blk, hblk, hw⟩ := List.mem_flatten.mp h
  obtain ⟨a, _, rfl⟩ := List.mem_map.mp hblk
  obtain ⟨m, _, rfl⟩ := List.mem_map.mp hw
  exact ⟨rfl, rfl, rfl⟩

/-! ### Facts about the LLM merge step -/

/-- Shape of every AI-reported interaction that survives deduplication. -/
theorem mem_aiInteractionFindings {pairs : List (List String)}
    {il : List LlmInteraction} {w : Finding} (h : w ∈ aiInteractionFindings pairs il) :
    w.source = "ai_analysis" ∧ w.drugs.length = 2 := by
  obtain ⟨i, _, hi⟩ := List.mem_filterMap.mp h
  by_cases hc : (!(pairs.contains (sortStrings i.drugs)) && i.drugs.length == 2) = true
  · rw [if_pos hc] at hi
    cases hi
    refine ⟨rfl, ?_⟩
    have := (Bool.and_eq_true _ _).mp hc
    simpa using this.2
  · rw [if_neg hc] at hi
    cases hi

/-- Shape of every appended free-form allergy concern. -/
theorem mem_aiConcernFindings {cs : List String} {w : Finding}
    (h : w ∈ aiConcernFindings cs) :
    w.source = "ai_analysis" ∧ w.drugs = [] := by
  obtain ⟨c, _, hc⟩ := List.mem_filterMap.mp h
  by_cases h0 : (!(c == "")) = true
  · rw [if_pos h0] at hc; cases hc; exact ⟨rfl, rfl⟩
  · rw [if_neg h0] at hc; cases hc

/-! ### Decomposition of the warnings list -/

/-- With at least one medication, the warnings list is: database scan hits,
then allergy findings, then (possibly) AI-sourced additions. -/
theorem checkInteractionsT_warnings
    (t : List ((String × String) × String × String)) (llm : Option LlmData)
    (meds al : List String) (u : Bool) (h : meds ≠ []) :
    ∃ extra,
      (checkInteractionsT t llm meds al u).warnings
        = checkKnownInteractionsT t meds ++ allergyFindings al meds ++ extra
      ∧ ∀ w ∈ extra, w.source = "ai_analysis" := by
  unfold checkInteractionsT
  rw [if_neg h]
  cases u with
  | false => exact ⟨[], by simp, by simp⟩
  | true =>
    cases llm with
    | none => exact ⟨[], by simp, by simp⟩
    | some d =>
      refine ⟨aiInteractionFindings
          (existingPairs (checkKnownInteractionsT t meds ++ allergyFindings al meds))
          d.interactions ++ aiConcernFindings d.allergyConcerns, by simp, ?_⟩
      intro w hw
      rcases List.mem_append.mp hw with h1 | h2
      · exact (mem_aiInteractionFindings h1).1
      · exact (mem_aiConcernFindings h2).1

/-- With at least one medication, the reported severity is the fold of
`sevStep` over the warnings, and `safe` is the two-element list membership
test from the source. -/
theorem checkInteractionsT_severity_safe
    (t : List ((String × String) × String × String)) (llm : Option LlmData)
    (meds al : List String) (u : Bool) (h : meds ≠ []) :
    (checkInteractionsT t llm meds al u).severity
        = resolveSeverity (checkInteractionsT t llm meds al u).warnings
      ∧ (checkInteractionsT t llm meds al u).safe
        = (["none", "low"] : List String).contains
            (checkInteractionsT t llm meds al u).severity := by
  unfold checkInteractionsT
  rw [if_neg h]
  exact ⟨rfl, rfl⟩

/-! ### Severity-fold lemmas -/

theorem sevRank_le_sevStep (acc : String) (w : Finding) :
    sevRank acc ≤ sevRank (sevStep acc w) := by
  unfold sevStep
  by_cases hc : sevRank acc < sevRank w.severity
  · rw [if_pos hc]; exact Nat.le_of_lt hc
  · rw [if_neg hc]

theorem sevRank_w_le_sevStep (acc : String) (w : Finding) :
    sevRank w.severity ≤ sevRank (sevStep acc w) := by
  unfold sevStep
  by_cases hc : sevRank acc < sevRank w.severity
  · rw [if_pos hc]
  · rw [if_neg hc]; exact Nat.le_of_not_lt hc

theorem sevRank_le_foldl (ws : List Finding) (acc : String) :
    sevRank acc ≤ sevRank (ws.foldl sevStep acc) := by
  induction ws generalizing acc with
  | nil => exact Nat.le_refl _
  | cons w ws ih =>
    exact Nat.le_trans (sevRank_le_sevStep acc w) (ih (sevStep acc w))

theorem sevRank_mem_le_foldl {w : Finding} {ws : List Finding} (acc : String)
    (hw : w ∈ ws) : sevRank w.severity ≤ sevRank (ws.foldl sevStep acc) := by
  induction ws generalizing acc with
  | nil => cases hw
  | cons u us ih =>
    rcases List.mem_cons.mp hw with rfl | hmem
    · exact Nat.le_trans (sevRank_w_le_sevStep acc w) (sevRank_le_foldl us _)
    · exact ih _ hmem

theorem foldl_sevStep_mem (ws : List Finding) (acc : String) :
    ws.foldl sevStep acc = acc ∨ ∃ w ∈ ws, w.severity = ws.foldl sevStep acc := by
  induction ws generalizing acc with
  | nil => exact Or.inl rfl
  | cons u us ih =>
    rcases ih (sevStep acc u) with heq | ⟨w, hw, hsev⟩
    · rw [List.foldl_cons, heq]
      unfold sevStep
      by_cases hc : sevRank acc < sevRank u.severity
      · rw [if_pos hc]
        exact Or.inr ⟨u, List.mem_cons_self u us, rfl⟩
      · rw [if_neg hc]
        exact Or.inl rfl
    · exact Or.inr ⟨w, List.mem_cons_of_mem u hw, hsev⟩

/-- Resolved severity never drops when a finding is appended. -/
theorem resolveSeverity_append_le (ws : List Finding) (f : Finding) :
    sevRank (resolveSeverity ws) ≤ sevRank (resolveSeverity (ws ++ [f])) := by
  unfold resolveSeverity
  rw [List.foldl_append]
  exact sevRank_le_sevStep _ f

/-- C1: with a non-empty medications list, the verdict severity is the
maximum severity over the warnings under the rank order
none < low < moderate < high < critical (default `"none"`), `safe` holds
exactly when the resolved severity is `"none"` or `"low"`, and appending any
finding never decreases the resolved severity. -/
theorem severity_resolution_max (llm : Option LlmData)
    (medications allergies : List String) (useLlm : Bool) (r : CheckResult)
    (h : medications ≠ [])
    (hr : r = checkInteractions llm medications allergies useLlm) :
    (∀ w ∈ r.warnings, sevRank w.severity ≤ sevRank r.severity) ∧
    (r.severity = "none" ∨ ∃ w ∈ r.warnings, w.severity = r.severity) ∧
    (r.safe = true ↔ (r.severity = "none" ∨ r.severity = "low")) ∧
    (∀ ws f, sevRank (resolveSeverity ws) ≤ sevRank (resolveSeverity (ws ++ [f]))) := by
  subst hr
  unfold checkInteractions
  obtain ⟨hsev, hsafe⟩ :=
    checkInteractionsT_severity_safe KNOWN_INTERACTIONS llm medications allergies useLlm h
  refine ⟨?_, ?_, ?_, fun ws f => resolveSeverity_append_le ws f⟩
  · intro w hw
    rw [hsev]
    exact sevRank_mem_le_foldl "none" hw
  · rw [hsev]
    exact foldl_sevStep_mem _ "none"
  · rw [hsafe]
    simp [List.contains_eq_any_beq, List.any_cons, List.any_nil,
      Bool.or_eq_true, beq_iff_eq]

/-- Witness for C1 at `check_interactions(["warfarin","aspirin"], [], use_llm=False)`. -/
theorem severity_resolution_max_witness :
    (checkInteractions none ["warfarin", "aspirin"] [] false).safe = true ↔
      ((checkInteractions none ["warfarin", "aspirin"] [] false).severity = "none" ∨
       (checkInteractions none ["warfarin", "aspirin"] [] false).severity = "low") :=
  (severity_resolution_max none ["warfarin", "aspirin"] [] false _
    (by decide) rfl).2.2.1

/-! ### Pair uniqueness (claim C2) -/

/-- The (sorted pair, source) key of each two-drug finding of a warnings
list; the frozen pair-uniqueness claim asserts these keys are duplicate-free. -/
def pairSourceKeys (ws : List Finding) : List (List String × String) :=
  (ws.filter (fun w => w.drugs.length == 2)).map
    (fun w => (sortStrings w.drugs, w.source))

/-- C2 counterexample: with `["fluoxetine", "sertraline", "phenelzine"]` the
candidate list contains the class name `"ssri"` twice (once per SSRI drug),
so the rule-store scan reports the (maoi, ssri) pair twice with source
`database` in a single call. -/
theorem duplicate_database_pair_counterexample :
    ¬ (pairSourceKeys (checkInteractions none
        ["fluoxetine", "sertraline", "phenelzine"] [] false).warnings).Nodup := by
  decide

theorem insertStr_perm (s : String) (l : List String) :
    List.Perm (insertStr s l) (s :: l) := by
  induction l with
  | nil => exact List.Perm.refl _
  | cons t ts ih =>
    rw [insertStr]
    by_cases hc : strLeChars s.data t.data = true
    · rw [if_pos hc]
    · rw [if_neg hc]
      exact (ih.cons t).trans (List.Perm.swap s t ts)

/-- Python `sorted` permutes its input. -/
theorem sortStrings_perm (l : List String) : List.Perm (sortStrings l) l := by
  induction l with
  | nil => exact List.Perm.refl _
  | cons t ts ih =>
    exact (insertStr_perm t (sortStrings ts)).trans (ih.cons t)

theorem sortStrings_pair_inj {d x y : String}
    (h : sortStrings [d, x] = sortStrings [d, y]) : x = y := by
  have hp : List.Perm [d, x] [d, y] :=
    ((sortStrings_perm [d, x]).symm.trans (h ▸ sortStrings_perm [d, y]))
  have hx : x ∈ [y] := (List.Perm.mem_iff hp.cons_inv).mp (List.mem_cons_self x [])
  simpa using hx

/-- Scanning a duplicate-free candidate list yields duplicate-free sorted
pair keys. -/
theorem pairScan_keys_nodup (t : List ((String × String) × String × String))
    {l : List String} (hl : l.Nodup) :
    ((pairScan t l).map (fun w => sortStrings w.drugs)).Nodup := by
  induction l with
  | nil => simp [pairScan]
  | cons d rest ih =>
    rw [pairScan, List.map_append]
    obtain ⟨hd_notin, hrest⟩ := List.nodup_cons.mp hl
    refine List.nodup_append.mpr ⟨?_, ih hrest, ?_⟩
    · rw [List.map_filterMap]
      refine List.Nodup.filterMap ?_ hrest
      intro a b c hca hcb
      obtain ⟨wa, hwa, hka⟩ := Option.map_eq_some'.mp hca
      obtain ⟨wb, hwb, hkb⟩ := Option.map_eq_some'.mp hcb
      have da := (checkPair_eq hwa).1
      have db := (checkPair_eq hwb).1
      apply sortStrings_pair_inj (d := d) (x := a) (y := b)
      rw [← da, ← db] at *
      rw [hka, hkb]
    · intro k hk1 hk2
      rw [List.map_filterMap] at hk1
      obtain ⟨x, _, hmap⟩ := List.mem_filterMap.mp hk1
      obtain ⟨w, hw, hkey⟩ := Option.map_eq_some'.mp hmap
      have hdr := (checkPair_eq hw).1
      obtain ⟨w2, hw2, hkey2⟩ := List.mem_map.mp hk2
      obtain ⟨⟨a, b, hd2, ha, hb⟩, _⟩ := mem_pairScan hw2
      have hdmem : d ∈ k := by
        rw [← hkey, hdr]
        exact (List.Perm.mem_iff (sortStrings_perm [d, x])).mpr
          (List.mem_cons_self d [x])
      rw [← hkey2, hd2] at hdmem
      have : d ∈ [a, b] := (List.Perm.mem_iff (sortStrings_perm [a, b])).mp hdmem
      rcases List.mem_cons.mp this with rfl | hdb
      · exact hd_notin ha
      · have : d = b := by simpa using hdb
        exact hd_notin (this ▸ hb)

/-- C2 amended: provided the normalized-drugs-plus-class-names candidate
list contains no duplicate entries, no unordered drug pair is reported twice
with source `database` in one call (without that hypothesis, and for
AI-sourced findings, duplicates can occur — see the counterexample). -/
theorem database_pair_uniqueness (llm : Option LlmData)
    (meds al : List String) (u : Bool) (h : meds ≠ [])
    (hnd : (withClasses meds).Nodup) :
    (((checkInteractions llm meds al u).warnings.filter
        (fun w => w.source == "database")).map (fun w => sortStrings w.drugs)).Nodup := by
  obtain ⟨extra, hw, hex⟩ :=
    checkInteractionsT_warnings KNOWN_INTERACTIONS llm meds al u h
  unfold checkInteractions
  rw [hw, List.filter_append, List.filter_append]
  have h1 : (checkKnownInteractionsT KNOWN_INTERACTIONS meds).filter
      (fun w => w.source == "database") = checkKnownInteractionsT KNOWN_INTERACTIONS meds := by
    refine List.filter_eq_self.mpr (fun w hmem => ?_)
    have := (mem_pairScan hmem).2
    simp [this]
  have h2 : (allergyFindings al meds).filter (fun w => w.source == "database") = [] := by
    refine List.filter_eq_nil_iff.mpr (fun w hmem => ?_)
    have := (mem_allergyFindings hmem).1
    simp [this]
  have h3 : extra.filter (fun w => w.source == "database") = [] := by
    refine List.filter_eq_nil_iff.mpr (fun w hmem => ?_)
    have := hex w hmem
    simp [this]
  rw [h1, h2, h3, List.append_nil, List.append_nil]
  exact pairScan_keys_nodup KNOWN_INTERACTIONS hnd

/-- Witness for C2 (amended) at
`check_interactions(["warfarin","aspirin"], [], use_llm=False)`. -/
theorem database_pair_uniqueness_witness :
    (((checkInteractions none ["warfarin", "aspirin"] [] false).warnings.filter
        (fun w => w.source == "database")).map (fun w => sortStrings w.drugs)).Nodup :=
  database_pair_uniqueness none ["warfarin", "aspirin"] [] false
    (by decide) (by decide)

/-- C3: with zero medications, `check_interactions` short-circuits to the
fixed safe/empty/none result, independently of the rule table, the declared
allergies, the `use_llm` flag and the LLM oracle (so neither the rule store,
nor the allergy cross-check, nor the backend can influence the result). -/
theorem empty_medications_short_circuit
    (table : List ((String × String) × String × String)) (llm : Option LlmData)
    (allergies : List String) (useLlm : Bool) :
    checkInteractionsT table llm [] allergies useLlm =
      { medicationsChecked := [], patientAllergies := [], warnings := [],
        severity := "none", safe := true, generalAdvice := none } := rfl

/-- C4: with at least one medication, every (allergy, medication) pair where
either lower-cased string contains the other yields its critical
`allergy_check` finding in the warnings; the number of allergy-sourced
warnings is exactly the number of matching pairs (one per pair); and every
allergy-sourced warning is critical. -/
theorem allergy_cross_check_findings (llm : Option LlmData)
    (medications allergies : List String) (useLlm : Bool)
    (h : medications ≠ []) :
    (∀ a ∈ allergies, ∀ m ∈ medications, allergyMatch a m = true →
      mkAllergyFinding a m ∈ (checkInteractions llm medications allergies useLlm).warnings) ∧
    ((checkInteractions llm medications allergies useLlm).warnings.filter
        (fun w => w.source == "allergy_check")).length
      = (allergies.map (fun a => (medications.filter (allergyMatch a)).length)).sum ∧
    (∀ w ∈ (checkInteractions llm medications allergies useLlm).warnings,
      w.source = "allergy_check" → w.severity = "critical") := by
  obtain ⟨extra, hw, hex⟩ :=
    checkInteractionsT_warnings KNOWN_INTERACTIONS llm medications allergies useLlm h
  unfold checkInteractions
  rw [hw]
  refine ⟨?_, ?_, ?_⟩
  · intro a ha m hm hmatch
    have hmem : mkAllergyFinding a m ∈ allergyFindings allergies medications := by
      rw [allergyFindings_eq]
      refine List.mem_flatten.mpr
        ⟨(medications.filter (allergyMatch a)).map (mkAllergyFinding a),
          List.mem_map.mpr ⟨a, ha, rfl⟩,
          List.mem_map.mpr ⟨m, List.mem_filter.mpr ⟨hm, hmatch⟩, rfl⟩⟩
    exact List.mem_append.mpr (Or.inl (List.mem_append.mpr (Or.inr hmem)))
  · rw [List.filter_append, List.filter_append]
    have h1 : (checkKnownInteractionsT KNOWN_INTERACTIONS medications).filter
        (fun w => w.source == "allergy_check") = [] := by
      refine List.filter_eq_nil_iff.mpr (fun w hmem => ?_)
      have := (mem_pairScan hmem).2
      simp [this]
    have h2 : (allergyFindings allergies medications).filter
        (fun w => w.source == "allergy_check") = allergyFindings allergies medications := by
      refine List.filter_eq_self.mpr (fun w hmem => ?_)
      have := (mem_allergyFindings hmem).1
      simp [this]
    have h3 : extra.filter (fun w => w.source == "allergy_check") = [] := by
      refine List.filter_eq_nil_iff.mpr (fun w hmem => ?_)
      have := hex w hmem
      simp [this]
    rw [h1, h2, h3, List.nil_append, List.append_nil, allergyFindings_eq]
    simp [List.length_flatten, List.map_map, Function.comp_def, List.length_map]
  · intro w hmem hsrc
    rcases List.mem_append.mp hmem with h12 | h3
    · rcases List.mem_append.mp h12 with h1 | h2
      · have := (mem_pairScan h1).2
        rw [hsrc] at this
        simp at this
      · exact (mem_allergyFindings h2).2.1
    · have := hex w h3
      rw [hsrc] at this
      simp at this

/-- Witness for C4 at
`check_interactions(["penicillin"], ["penicillin"], use_llm=False)`:
a critical `allergy_check` finding is emitted. -/
theorem allergy_cross_check_findings_witness :
    mkAllergyFinding "penicillin" "penicillin"
        ∈ (checkInteractions none ["penicillin"] ["penicillin"] false).warnings ∧
      (mkAllergyFinding "penicillin" "penicillin").severity = "critical" ∧
      (mkAllergyFinding "penicillin" "penicillin").source = "allergy_check" :=
  ⟨(allergy_cross_check_findings none ["penicillin"] ["penicillin"] false
      (by decide)).1 "penicillin" (by decide) "penicillin" (by decide) (by decide),
    rfl, rfl⟩

/-! ### AI deduplication (claim C5) -/

/-- Decidable statement of the frozen C5 claim: scanning the warnings left
to right, every AI-sourced two-drug finding has a sorted pair different from
the sorted pair of every finding recorded before it. -/
def aiPairwiseFreshAux : List (List String) → List Finding → Bool
  | _, [] => true
  | seen, w :: rest =>
    (if w.source == "ai_analysis" && w.drugs.length == 2 then
      !(seen.contains (sortStrings w.drugs))
    else true)
    && aiPairwiseFreshAux (sortStrings w.drugs :: seen) rest

/-- See `aiPairwiseFreshAux`. -/
def aiPairwiseFresh (ws : List Finding) : Bool :=
  aiPairwiseFreshAux [] ws

/-- C5 counterexample: the deduplication set is computed once, before the
append loop, so an LLM payload repeating one novel pair twice appends two
`ai_analysis` findings with the same sorted pair — the second one does not
differ from a finding already recorded. -/
theorem ai_dedup_counterexample :
    aiPairwiseFresh (checkInteractions
      (some ⟨[⟨["a", "b"], "low", "dup"⟩, ⟨["a", "b"], "low", "dup"⟩], [], ""⟩)
      ["warfarin"] [] true).warnings = false := by
  decide

/-- C5 amended: an AI-reported interaction is appended (tagged
`ai_analysis`) exactly when it names two drugs and its sorted pair differs
from the sorted pair of every finding recorded before the AI-merge loop
(database scan plus allergy check); the pair set is not updated inside the
loop. Consequently an AI payload whose every interaction pair duplicates an
already-recorded pair adds only its allergy-concern entries. -/
theorem ai_dedup_against_prior_findings (d : LlmData) (meds al : List String)
    (h : meds ≠ []) :
    ((checkInteractions (some d) meds al true).warnings.filter
        (fun w => w.source == "ai_analysis" && w.drugs.length == 2))
      = aiInteractionFindings
          (existingPairs ((checkInteractions none meds al false).warnings))
          d.interactions ∧
    (∀ pairs il, aiInteractionFindings pairs il
      = (il.filter (fun i => !(pairs.contains (sortStrings i.drugs))
            && i.drugs.length == 2)).map
          (fun i => ⟨i.drugs, i.severity, i.warning, "ai_analysis"⟩)) ∧
    ((∀ i ∈ d.interactions,
        (existingPairs ((checkInteractions none meds al false).warnings)).contains
          (sortStrings i.drugs) = true) →
      (checkInteractions (some d) meds al true).warnings.length
        = (checkInteractions none meds al false).warnings.length
          + (d.allergyConcerns.filter (fun c => !(c == ""))).length) := by
  have hbase : (checkInteractions none meds al false).warnings
      = checkKnownInteractionsT KNOWN_INTERACTIONS meds ++ allergyFindings al meds := by
    unfold checkInteractions checkInteractionsT
    rw [if_neg h]
    rfl
  have hfull : (checkInteractions (some d) meds al true).warnings
      = (checkKnownInteractionsT KNOWN_INTERACTIONS meds ++ allergyFindings al meds)
        ++ aiInteractionFindings
            (existingPairs (checkKnownInteractionsT KNOWN_INTERACTIONS meds
              ++ allergyFindings al meds)) d.interactions
        ++ aiConcernFindings d.allergyConcerns := by
    unfold checkInteractions checkInteractionsT
    rw [if_neg h]
    rfl
  refine ⟨?_, ?_, ?_⟩
  · rw [hfull, hbase, List.filter_append, List.filter_append, List.filter_append]
    have h1 : (checkKnownInteractionsT KNOWN_INTERACTIONS meds).filter
        (fun w => w.source == "ai_analysis" && w.drugs.length == 2) = [] := by
      refine List.filter_eq_nil_iff.mpr (fun w hmem => ?_)
      have := (mem_pairScan hmem).2
      simp [this]
    have h2 : (allergyFindings al meds).filter
        (fun w => w.source == "ai_analysis" && w.drugs.length == 2) = [] := by
      refine List.filter_eq_nil_iff.mpr (fun w hmem => ?_)
      have := (mem_allergyFindings hmem).1
      simp [this]
    have h3 : (aiInteractionFindings
        (existingPairs (checkKnownInteractionsT KNOWN_INTERACTIONS meds
          ++ allergyFindings al meds)) d.interactions).filter
        (fun w => w.source == "ai_analysis" && w.drugs.length == 2)
        = aiInteractionFindings
            (existingPairs (checkKnownInteractionsT KNOWN_INTERACTIONS meds
              ++ allergyFindings al meds)) d.interactions := by
      refine List.filter_eq_self.mpr (fun w hmem => ?_)
      obtain ⟨hs, hl⟩ := mem_aiInteractionFindings hmem
      simp [hs, hl]
    have h4 : (aiConcernFindings d.allergyConcerns).filter
        (fun w => w.source == "ai_analysis" && w.drugs.length == 2) = [] := by
      refine List.filter_eq_nil_iff.mpr (fun w hmem => ?_)
      obtain ⟨hs, hd⟩ := mem_aiConcernFindings hmem
      simp [hs, hd]
    rw [h1, h2, h3, h4, List.append_nil, List.nil_append, List.nil_append]
  · intro pairs il
    exact filterMap_guard_eq_filter_map _ _ il
  · intro hall
    have hempty : aiInteractionFindings
        (existingPairs (checkKnownInteractionsT KNOWN_INTERACTIONS meds
          ++ allergyFindings al meds)) d.interactions = [] := by
      refine List.filterMap_eq_nil_iff.mpr (fun i hi => ?_)
      have := hall i hi
      rw [hbase] at this
      have hmem : sortStrings i.drugs
          ∈ existingPairs (checkKnownInteractionsT KNOWN_INTERACTIONS meds
              ++ allergyFindings al meds) := by
        simpa using this
      exact if_neg (by simp [hmem])
    rw [hfull, hempty, List.append_nil, hbase, List.length_append]
    congr 1
    unfold aiConcernFindings
    rw [filterMap_guard_eq_filter_map]
    exact List.length_map _ _

/-- Witness for C5 (amended): an AI payload with no interactions adds
exactly its one allergy concern. -/
theorem ai_dedup_against_prior_findings_witness :
    (checkInteractions (some ⟨[], ["watch for rash"], ""⟩) ["warfarin"] [] true).warnings.length
      = (checkInteractions none ["warfarin"] [] false).warnings.length
        + ((["watch for rash"].filter (fun c => !(c == ""))).length) :=
  (ai_dedup_against_prior_findings ⟨[], ["watch for rash"], ""⟩ ["warfarin"] []
    (by decide)).2.2 (by simp)

/-! ### Prescription suggestion engine (prescription_ai.py) -/

/-- One value of the `TREATMENT_GUIDELINES` table. -/
structure GuidelineEntry where
  firstLine : List String
  typicalDosage : List (String × String)
  deriving DecidableEq, Repr

/-- `TREATMENT_GUIDELINES` (prescription_ai.py, lines 7-79), in insertion
order (Python dicts preserve it). -/
def TREATMENT_GUIDELINES : List (String × GuidelineEntry) :=
  [ ("hypertension",
      ⟨["lisinopril", "amlodipine", "hydrochlorothiazide"],
        [("lisinopril", "10-40mg once daily"), ("amlodipine", "5-10mg once daily"),
          ("hydrochlorothiazide", "12.5-25mg once daily")]⟩),
    ("type 2 diabetes",
      ⟨["metformin"], [("metformin", "500-1000mg twice daily with meals")]⟩),
    ("hyperlipidemia",
      ⟨["atorvastatin", "rosuvastatin"],
        [("atorvastatin", "10-80mg once daily"), ("rosuvastatin", "5-40mg once daily")]⟩),
    ("depression",
      ⟨["sertraline", "escitalopram"],
        [("sertraline", "50-200mg once daily"), ("escitalopram", "10-20mg once daily")]⟩),
    ("anxiety",
      ⟨["sertraline", "escitalopram", "buspirone"],
        [("sertraline", "50-200mg once daily"), ("buspirone", "5-10mg twice daily")]⟩),
    ("pain",
      ⟨["acetaminophen", "ibuprofen"],
        [("acetaminophen", "500-1000mg every 6 hours as needed"),
          ("ibuprofen", "400-800mg every 6-8 hours as needed")]⟩),
    ("infection",
      ⟨["amoxicillin", "azithromycin"],
        [("amoxicillin", "500mg three times daily for 7-10 days"),
          ("azithromycin", "500mg day 1, then 250mg days 2-5")]⟩),
    ("acid reflux",
      ⟨["omeprazole", "pantoprazole"],
        [("omeprazole", "20-40mg once daily before breakfast"),
          ("pantoprazole", "40mg once daily")]⟩),
    ("asthma",
      ⟨["albuterol", "fluticasone"],
        [("albuterol", "2 puffs every 4-6 hours as needed"),
          ("fluticasone", "1-2 puffs twice daily")]⟩),
    ("allergies",
      ⟨["cetirizine", "loratadine", "fexofenadine"],
        [("cetirizine", "10mg once daily"), ("loratadine", "10mg once daily"),
          ("fexofenadine", "180mg once daily")]⟩) ]

/-- Python `dict.get(key, default)` on a string-to-string dict. -/
def dictGetD (d : List (String × String)) (k dflt : String) : String :=
  match d.find? (fun e => e.1 = k) with
  | some e => e.2
  | none => dflt

/-- The dictionary returned by `_get_guideline_suggestion` (its constant
`source="guidelines"` key is implied). -/
structure GuidelineSuggestion where
  medication : String
  dosage : String
  alternatives : List String
  deriving DecidableEq, Repr

/-- `_get_guideline_suggestion`: first guideline whose condition and the
lower-cased diagnosis contain one another, with its first first-line
medication.  (Every table entry has a non-empty `first_line`; the source
indexes `[0]` unconditionally.) -/
def getGuidelineSuggestion (diagnosis : String) : Option GuidelineSuggestion :=
  let dl := lowerStr diagnosis
  match TREATMENT_GUIDELINES.find? (fun cg => strHasSub cg.1 dl || strHasSub dl cg.1) with
  | some cg =>
    match cg.2.firstLine with
    | firstMed :: rest =>
      some ⟨firstMed, dictGetD cg.2.typicalDosage firstMed "As directed", rest⟩
    | [] => none
  | none => none

/-- The suggestion dictionary of a prescription result. -/
structure Suggestion where
  medication : String
  dosage : String
  frequency : String
  duration : String
  instructions : String
  warnings : List String
  alternatives : List String
  reasoning : String
  deriving DecidableEq, Repr

/-- The decoded JSON suggestion from the LLM; the two required fields may be
absent and are backfilled. -/
structure SuggestionJson where
  medication : Option String
  dosage : Option String
  frequency : String
  duration : String
  instructions : String
  warnings : List String
  alternatives : List String
  reasoning : String
  deriving DecidableEq, Repr

/-- Lines 202-206: absent `medication`/`dosage` become `"Consult physician"`. -/
def backfill (s : SuggestionJson) : Suggestion :=
  ⟨s.medication.getD "Consult physician", s.dosage.getD "Consult physician",
    s.frequency, s.duration, s.instructions, s.warnings, s.alternatives, s.reasoning⟩

/-- Outcome of the `ollama.generate` call plus JSON extraction, as seen by
`suggest_prescription`: outright failure, a decoded payload, or a reply
with no parsable JSON block. -/
inductive GenOutcome where
  | failure (err : String)
  | parsed (s : SuggestionJson)
  | unparsable
  deriving DecidableEq, Repr

/-- The result dictionary of `suggest_prescription`; keys that a branch does
not set are modelled as `none`. -/
structure PrescriptionResult where
  success : Bool
  suggestion : Option Suggestion
  source : Option String
  aiAvailable : Option Bool
  guidelineMatch : Option Bool
  parseError : Option Bool
  error : Option String
  deriving DecidableEq, Repr

/-- `suggest_prescription` (lines 106-241).  The patient-context arguments
only shape the prompt sent to the backend, so they are absorbed into the
`gen` oracle. -/
def suggestPrescription (gen : GenOutcome) (diagnosis : String) : PrescriptionResult :=
  let g := getGuidelineSuggestion diagnosis
  match gen with
  | .failure err =>
    match g with
    | some gs =>
      { success := true,
        suggestion := some ⟨gs.medication, gs.dosage, "As directed by physician",
          "As prescribed", "Take as directed. Contact doctor if symptoms persist.",
          ["Review for drug interactions", "Monitor for side effects"],
          gs.alternatives, "Based on standard treatment guidelines"⟩,
        source := some "guidelines", aiAvailable := some false,
        guidelineMatch := none, parseError := none, error := none }
    | none =>
      { success := false, suggestion := none, source := none, aiAvailable := none,
        guidelineMatch := none, parseError := none, error := some err }
  | .parsed s =>
      { success := true, suggestion := some (backfill s), source := some "ai",
        aiAvailable := some true, guidelineMatch := some g.isSome,
        parseError := none, error := none }
  | .unparsable =>
    match g with
    | some gs =>
      { success := true,
        suggestion := some ⟨gs.medication, gs.dosage, "As directed", "As prescribed",
          "Take as directed by your physician.", [], gs.alternatives,
          "Based on treatment guidelines"⟩,
        source := some "guidelines", aiAvailable := some true,
        guidelineMatch := none, parseError := some true, error := none }
    | none =>
      { success := false, suggestion := none, source := none, aiAvailable := none,
        guidelineMatch := none, parseError := none,
        error := some "Failed to parse AI response" }

/-- C7: when the backend call fails outright, a matching guideline yields a
deterministic success result with source `guidelines`, `ai_available=False`
and the guideline first-line medication — in particular `"lisinopril"` for
diagnosis `"hypertension"` — and with no guideline match the result is a
failure with no suggestion. -/
theorem guideline_fallback_on_backend_failure (err diagnosis : String) :
    (∀ gs, getGuidelineSuggestion diagnosis = some gs →
      suggestPrescription (.failure err) diagnosis =
        { success := true,
          suggestion := some ⟨gs.medication, gs.dosage, "As directed by physician",
            "As prescribed", "Take as directed. Contact doctor if symptoms persist.",
            ["Review for drug interactions", "Monitor for side effects"],
            gs.alternatives, "Based on standard treatment guidelines"⟩,
          source := some "guidelines", aiAvailable := some false,
          guidelineMatch := none, parseError := none, error := none }) ∧
    (getGuidelineSuggestion diagnosis = none →
      suggestPrescription (.failure err) diagnosis =
        { success := false, suggestion := none, source := none, aiAvailable := none,
          guidelineMatch := none, parseError := none, error := some err }) ∧
    (suggestPrescription (.failure err) "hypertension").suggestion.map (·.medication)
      = some "lisinopril" := by
  refine ⟨?_, ?_, ?_⟩
  · intro gs hg
    unfold suggestPrescription
    rw [hg]
  · intro hg
    unfold suggestPrescription
    rw [hg]
  · rfl

/-- Witness for C7: backend forced down on diagnosis `"hypertension"`. -/
theorem guideline_fallback_on_backend_failure_witness :
    suggestPrescription (.failure "backend down") "hypertension" =
      { success := true,
        suggestion := some ⟨"lisinopril", "10-40mg once daily",
          "As directed by physician", "As prescribed",
          "Take as directed. Contact doctor if symptoms persist.",
          ["Review for drug interactions", "Monitor for side effects"],
          ["amlodipine", "hydrochlorothiazide"],
          "Based on standard treatment guidelines"⟩,
        source := some "guidelines", aiAvailable := some false,
        guidelineMatch := none, parseError := none, error := none } :=
  (guideline_fallback_on_backend_failure "backend down" "hypertension").1
    ⟨"lisinopril", "10-40mg once daily", ["amlodipine", "hydrochlorothiazide"]⟩ rfl

/-! ### Semantic retrieval (rag_service.py)

Float vectors are modelled over `ℝ`.  `np.linalg.norm` is the Euclidean
norm; `np.dot` on two 1-D arrays of different lengths raises `ValueError`,
modelled in `Except`. -/

/-- `np.dot(a, b)` for equal-length 1-D arrays (zip-truncating otherwise;
the embedding only evaluates it on equal lengths). -/
def dotList (a b : List ℝ) : ℝ :=
  (List.zipWith (· * ·) a b).sum

/-- Sum of squares of the entries. -/
def sumSq (a : List ℝ) : ℝ :=
  (a.map (fun x => x ^ 2)).sum

/-- `np.linalg.norm(a)`. -/
noncomputable def normE (a : List ℝ) : ℝ :=
  Real.sqrt (sumSq a)

/-- `cosine_similarity` (rag_service.py, lines 7-20): `0.0` for an empty
input or a zero norm; `np.dot` raises when the (nonzero-norm, non-empty)
vectors have different lengths. -/
noncomputable def cosineSimilarity (a b : List ℝ) : Except String ℝ :=
  if a = [] ∨ b = [] then .ok 0
  else if normE a = 0 ∨ normE b = 0 then .ok 0
  else if a.length ≠ b.length then .error "shapes not aligned"
  else .ok (dotList a b / (normE a * normE b))

/-- The `embedding` field of a record dictionary: absent key or `None`,
a serialized (JSON string) form, or a vector. -/
inductive EmbField where
  | missing
  | noneVal
  | str (s : String)
  | vec (v : List ℝ)

/-- A medical-record dictionary, as consumed by `search_records`. -/
structure MedRecord where
  title : String
  content : String
  recordType : String
  recordDate : String
  embedding : EmbField

/-- A record with its attached `similarity` key (`{**record, 'similarity'}`;
the original `embedding` field is kept). -/
structure SearchResult where
  record : MedRecord
  similarity : ℝ

/-- Python truthiness of the `embedding` field (`if record_embedding:`). -/
def embTruthy : EmbField → Bool
  | .missing => false
  | .noneVal => false
  | .str s => !(s == "")
  | .vec v => !v.isEmpty

/-- The vector a record contributes on the embedding path, if any:
falsy fields are skipped, string fields go through the JSON deserializer
(`parse`, abstract here), failures are skipped. -/
def embVal (parse : String → Option (List ℝ)) (r : MedRecord) : Option (List ℝ) :=
  match r.embedding with
  | .missing => none
  | .noneVal => none
  | .str s => if s == "" then none else parse s
  | .vec v => if v.isEmpty then none else some v

/-- The scoring loop of `search_records` (lines 79-95): skip recordless
vectors, score the rest, keep those with `similarity >= min_similarity`;
a raising `cosine_similarity` call aborts the whole search. -/
noncomputable def scoreRecords (parse : String → Option (List ℝ)) (qe : List ℝ)
    (minSim : ℝ) : List MedRecord → Except String (List SearchResult)
  | [] => .ok []
  | r :: rest =>
    match embVal parse r with
    | none => scoreRecords parse qe minSim rest
    | some v =>
      match cosineSimilarity qe v with
      | .error e => .error e
      | .ok sim =>
        match scoreRecords parse qe minSim rest with
        | .error e => .error e
        | .ok tail => .ok (if minSim ≤ sim then ⟨r, sim⟩ :: tail else tail)

/-- `key=lambda x: x['similarity'], reverse=True`. -/
noncomputable def descBySim (x y : SearchResult) : Bool :=
  decide (y.similarity ≤ x.similarity)

/-- Python `str.split()` (whitespace runs, no empty parts) on char lists. -/
def pySplitWsAux (cur : List Char) : List Char → List (List Char)
  | [] => if cur.isEmpty then [] else [cur.reverse]
  | c :: cs =>
    if c.isWhitespace then
      if cur.isEmpty then pySplitWsAux [] cs
      else cur.reverse :: pySplitWsAux [] cs
    else pySplitWsAux (c :: cur) cs

/-- Python `str.split()`. -/
def pySplitWs (s : String) : List String :=
  (pySplitWsAux [] s.data).map (fun l => ⟨l⟩)

/-- `query.lower().split()`. -/
def kwTerms (query : String) : List String :=
  pySplitWs (lowerStr query)

/-- `f"{record.get('title', '')} {record.get('content', '')}".lower()`. -/
def kwContent (r : MedRecord) : String :=
  lowerStr (r.title ++ " " ++ r.content)

/-- `sum(1 for term in query_terms if term in content)`. -/
def kwMatches (query : String) (r : MedRecord) : Nat :=
  ((kwTerms query).filter (fun t => strHasSub t (kwContent r))).length

/-- `_keyword_search` (lines 102-123): any record with a positive match
count is kept with similarity `matches / len(query_terms)`; no
`min_similarity` threshold is applied on this path. -/
noncomputable def keywordSearch (query : String) (records : List MedRecord)
    (topK : Nat) : List SearchResult :=
  ((records.filterMap (fun r =>
      if 0 < kwMatches query r then
        some ⟨r, (kwMatches query r : ℝ) / ((kwTerms query).length : ℝ)⟩
      else none)).mergeSort descBySim).take topK

/-- `search_records` (lines 53-100), with the query-embedding outcome as an
oracle: a falsy (`None` or empty) query embedding falls back to keyword
scoring; otherwise records are scored, filtered by `min_similarity`, sorted
descending and truncated to `top_k`. -/
noncomputable def searchRecords (embedQuery : Option (List ℝ))
    (parse : String → Option (List ℝ)) (query : String)
    (records : List MedRecord) (topK : Nat) (minSim : ℝ) :
    Except String (List SearchResult) :=
  match embedQuery with
  | none => .ok (keywordSearch query records topK)
  | some qe =>
    if qe.isEmpty then .ok (keywordSearch query records topK)
    else
      match scoreRecords parse qe minSim records with
      | .error e => .error e
      | .ok results => .ok ((results.mergeSort descBySim).take topK)

/-- C8 counterexample: `cosine_similarity([1.0], [1.0, 1.0])` reaches
`np.dot` with mismatched shapes and raises instead of returning. -/
theorem cosine_mismatched_length_counterexample :
    cosineSimilarity [1] [1, 1] = .error "shapes not aligned" := by
  have h1 : normE [(1 : ℝ)] = 1 := by
    simp [normE, sumSq]
  have h2 : (0 : ℝ) < normE [(1 : ℝ), 1] := by
    unfold normE
    apply Real.sqrt_pos.mpr
    simp [sumSq]
  unfold cosineSimilarity
  rw [if_neg (by simp), if_neg ?_, if_pos (by simp)]
  intro hor
  rcases hor with h | h
  · rw [h1] at h
    exact one_ne_zero h
  · exact (ne_of_gt h2) h

/-- C8 amended: `cosine_similarity` returns exactly `0.0` whenever either
vector is empty or has zero norm (without raising), and returns a value —
never raises — whenever the vectors have equal length; raising is confined
to nonzero-norm vectors of different lengths. -/
theorem cosine_zero_norm_guard (a b : List ℝ) :
    ((a = [] ∨ b = [] ∨ normE a = 0 ∨ normE b = 0) →
      cosineSimilarity a b = .ok 0) ∧
    (a.length = b.length → ∃ v, cosineSimilarity a b = .ok v) := by
  constructor
  · intro h
    unfold cosineSimilarity
    by_cases h1 : a = [] ∨ b = []
    · rw [if_pos h1]
    · have h2 : normE a = 0 ∨ normE b = 0 := by tauto
      rw [if_neg h1, if_pos h2]
  · intro hlen
    unfold cosineSimilarity
    by_cases h1 : a = [] ∨ b = []
    · exact ⟨0, by rw [if_pos h1]⟩
    · by_cases h2 : normE a = 0 ∨ normE b = 0
      · exact ⟨0, by rw [if_neg h1, if_pos h2]⟩
      · exact ⟨dotList a b / (normE a * normE b),
          by rw [if_neg h1, if_neg h2, if_neg (by simp [hlen])]⟩

/-- Witness for C8 (amended): a zero vector yields exactly `0.0`, and
equal-length vectors always yield a value. -/
theorem cosine_zero_norm_guard_witness :
    cosineSimilarity [0] [5] = .ok 0 ∧ ∃ v, cosineSimilarity [2] [3] = .ok v :=
  ⟨(cosine_zero_norm_guard [0] [5]).1
      (Or.inr (Or.inr (Or.inl (by simp [normE, sumSq])))),
    (cosine_zero_norm_guard [2] [3]).2 rfl⟩

/-! ### Cosine similarity bounds -/

theorem sumSq_nonneg (a : List ℝ) : 0 ≤ sumSq a := by
  apply List.sum_nonneg
  intro x hx
  obtain ⟨y, _, rfl⟩ := List.mem_map.mp hx
  positivity

theorem dotList_eq_sum (a : List ℝ) : ∀ b : List ℝ, a.length = b.length →
    dotList a b = ∑ i ∈ Finset.range a.length, a.getD i 0 * b.getD i 0 := by
  induction a with
  | nil => intro b h; simp [dotList]
  | cons x xs ih =>
    intro b h
    cases b with
    | nil => simp at h
    | cons y ys =>
      have hlen : xs.length = ys.length := by simpa using h
      calc dotList (x :: xs) (y :: ys) = x * y + dotList xs ys := by
              simp [dotList]
        _ = x * y + ∑ i ∈ Finset.range xs.length, xs.getD i 0 * ys.getD i 0 := by
              rw [ih ys hlen]
        _ = ∑ i ∈ Finset.range (xs.length + 1),
              (x :: xs).getD i 0 * (y :: ys).getD i 0 := by
              rw [Finset.sum_range_succ']
              simp [add_comm]

theorem sumSq_eq_sum (a : List ℝ) :
    sumSq a = ∑ i ∈ Finset.range a.length, (a.getD i 0) ^ 2 := by
  induction a with
  | nil => simp [sumSq]
  | cons x xs ih =>
    calc sumSq (x :: xs) = x ^ 2 + sumSq xs := by simp [sumSq]
      _ = x ^ 2 + ∑ i ∈ Finset.range xs.length, (xs.getD i 0) ^ 2 := by rw [ih]
      _ = ∑ i ∈ Finset.range (xs.length + 1), ((x :: xs).getD i 0) ^ 2 := by
            rw [Finset.sum_range_succ']
            simp [add_comm]

/-- Cauchy–Schwarz for the list dot product. -/
theorem cauchy_schwarz_lists {a b : List ℝ} (h : a.length = b.length) :
    (dotList a b) ^ 2 ≤ sumSq a * sumSq b := by
  rw [dotList_eq_sum a b h, sumSq_eq_sum a, sumSq_eq_sum b, ← h]
  exact Finset.sum_mul_sq_le_sq_mul_sq _ _ _

/-- Any value `cosine_similarity` actually returns lies in `[-1, 1]`. -/
theorem cosine_ok_range {a b : List ℝ} {v : ℝ}
    (h : cosineSimilarity a b = .ok v) : -1 ≤ v ∧ v ≤ 1 := by
  unfold cosineSimilarity at h
  by_cases h1 : a = [] ∨ b = []
  · rw [if_pos h1] at h
    obtain rfl := (Except.ok.inj h).symm
    norm_num
  · rw [if_neg h1] at h
    by_cases h2 : normE a = 0 ∨ normE b = 0
    · rw [if_pos h2] at h
      obtain rfl := (Except.ok.inj h).symm
      norm_num
    · by_cases h3 : a.length ≠ b.length
      · rw [if_neg h2, if_pos h3] at h
        exact Except.noConfusion h
      · rw [if_neg h2, if_neg h3] at h
        have hv := Except.ok.inj h
        have hlen : a.length = b.length := not_not.mp h3
        obtain ⟨hna0, hnb0⟩ := not_or.mp h2
        have hna : 0 < normE a :=
          lt_of_le_of_ne (Real.sqrt_nonneg _) (Ne.symm hna0)
        have hnb : 0 < normE b :=
          lt_of_le_of_ne (Real.sqrt_nonneg _) (Ne.symm hnb0)
        have hprod : 0 < normE a * normE b := mul_pos hna hnb
        have habs : |dotList a b| ≤ normE a * normE b := by
          have hmul : normE a * normE b = Real.sqrt (sumSq a * sumSq b) := by
            unfold normE
            rw [← Real.sqrt_mul (sumSq_nonneg a)]
          rw [hmul]
          exact Real.abs_le_sqrt (cauchy_schwarz_lists hlen)
        have hvbound : |v| ≤ 1 := by
          rw [← hv, abs_div, abs_of_pos hprod]
          exact (div_le_one hprod).mpr habs
        exact abs_le.mp hvbound

/-! ### Search result membership lemmas -/

/-- Every keyword-path similarity is in `(0, 1]` (matched terms over total
terms). -/
theorem mem_keywordSearch {q : String} {records : List MedRecord} {k : Nat}
    {sr : SearchResult} (h : sr ∈ keywordSearch q records k) :
    0 < sr.similarity ∧ sr.similarity ≤ 1 := by
  unfold keywordSearch at h
  have h1 := List.mem_of_mem_take h
  have h2 := (List.mergeSort_perm _ descBySim).mem_iff.mp h1
  obtain ⟨r, _, hf⟩ := List.mem_filterMap.mp h2
  by_cases hm : 0 < kwMatches q r
  · rw [if_pos hm] at hf
    cases hf
    have hle : kwMatches q r ≤ (kwTerms q).length := by
      unfold kwMatches
      exact List.length_filter_le _ _
    have hpos : 0 < (kwTerms q).length := lt_of_lt_of_le hm hle
    constructor
    · apply div_pos
      · exact_mod_cast hm
      · exact_mod_cast hpos
    · apply (div_le_one (by exact_mod_cast hpos)).mpr
      exact_mod_cast hle
  · rw [if_neg hm] at hf
    exact Option.noConfusion hf

/-- Every scored result passed the threshold and is the value actually
returned by `cosine_similarity` on that record's deserialized embedding. -/
theorem mem_scoreRecords {parse : String → Option (List ℝ)} {qe : List ℝ}
    {minSim : ℝ} {rs : List MedRecord} {out : List SearchResult}
    {sr : SearchResult} (hok : scoreRecords parse qe minSim rs = .ok out)
    (hmem : sr ∈ out) :
    minSim ≤ sr.similarity ∧
      ∃ v, embVal parse sr.record = some v ∧
        cosineSimilarity qe v = .ok sr.similarity := by
  induction rs generalizing out with
  | nil =>
    simp only [scoreRecords] at hok
    obtain rfl := Except.ok.inj hok
    exact absurd hmem (by simp)
  | cons r rest ih =>
    simp only [scoreRecords] at hok
    split at hok
    · exact ih hok hmem
    · rename_i v hev
      split at hok
      · exact Except.noConfusion hok
      · rename_i sim hcs
        split at hok
        · exact Except.noConfusion hok
        · rename_i tail htail
          have hout := Except.ok.inj hok
          by_cases hkeep : minSim ≤ sim
          · rw [if_pos hkeep] at hout
            subst hout
            rcases List.mem_cons.mp hmem with rfl | hmem2
            · exact ⟨hkeep, v, hev, hcs⟩
            · exact ih htail hmem2
          · rw [if_neg hkeep] at hout
            subst hout
            exact ih htail hmem

/-! ### Sortedness and truncation -/

/-- The sorted-then-truncated result list is descending by similarity. -/
theorem pairwise_desc_take (l : List SearchResult) (k : Nat) :
    List.Pairwise (fun x y => y.similarity ≤ x.similarity)
      ((l.mergeSort descBySim).take k) := by
  have htrans : ∀ a b c : SearchResult,
      descBySim a b → descBySim b c → descBySim a c := by
    intro a b c hab hbc
    have h1 : b.similarity ≤ a.similarity := of_decide_eq_true hab
    have h2 : c.similarity ≤ b.similarity := of_decide_eq_true hbc
    exact decide_eq_true (le_trans h2 h1)
  have htotal : ∀ a b : SearchResult, descBySim a b || descBySim b a := by
    intro a b
    rcases le_total a.similarity b.similarity with h | h
    · have : descBySim b a = true := decide_eq_true h
      simp [this]
    · have : descBySim a b = true := decide_eq_true h
      simp [this]
  have hs := List.sorted_mergeSort htrans htotal l
  have hs2 : List.Pairwise (fun x y : SearchResult => y.similarity ≤ x.similarity)
      (l.mergeSort descBySim) :=
    hs.imp (fun hab => of_decide_eq_true hab)
  exact hs2.sublist (List.take_sublist k _)

/-- C9 amended: every returned similarity lies in `[-1, 1]` (cosine values
can be negative; with a negative `min_similarity` they are returned), and on
the keyword-fallback path every returned similarity lies in `(0, 1]`. -/
theorem similarity_range_bounds (embedQuery : Option (List ℝ))
    (parse : String → Option (List ℝ)) (query : String)
    (records : List MedRecord) (topK : Nat) (minSim : ℝ)
    (res : List SearchResult)
    (hres : searchRecords embedQuery parse query records topK minSim = .ok res) :
    (∀ sr ∈ res, -1 ≤ sr.similarity ∧ sr.similarity ≤ 1) ∧
    ((embedQuery = none ∨ embedQuery = some []) →
      ∀ sr ∈ res, 0 < sr.similarity) := by
  cases embedQuery with
  | none =>
    simp only [searchRecords] at hres
    obtain rfl := Except.ok.inj hres
    constructor
    · intro sr hsr
      obtain ⟨hpos, hle⟩ := mem_keywordSearch hsr
      exact ⟨by linarith, hle⟩
    · intro _ sr hsr
      exact (mem_keywordSearch hsr).1
  | some qe =>
    simp only [searchRecords] at hres
    by_cases hq : qe.isEmpty
    · rw [if_pos hq] at hres
      obtain rfl := Except.ok.inj hres
      constructor
      · intro sr hsr
        obtain ⟨hpos, hle⟩ := mem_keywordSearch hsr
        exact ⟨by linarith, hle⟩
      · intro _ sr hsr
        exact (mem_keywordSearch hsr).1
    · rw [if_neg hq] at hres
      cases hsc : scoreRecords parse qe minSim records with
      | error e =>
        rw [hsc] at hres
        exact Except.noConfusion hres
      | ok scored =>
        rw [hsc] at hres
        obtain rfl := Except.ok.inj hres
        constructor
        · intro sr hsr
          have h1 : sr ∈ scored :=
            (List.mergeSort_perm scored descBySim).mem_iff.mp
              (List.mem_of_mem_take hsr)
          obtain ⟨_, v, _, hcs⟩ := mem_scoreRecords hsc h1
          exact cosine_ok_range hcs
        · intro hcase
          rcases hcase with hc | hc
          · exact Option.noConfusion hc
          · have := Option.some.inj hc
            rw [this] at hq
            simp at hq

/-- C6 amended: every search result list is at most `top_k` long and sorted
descending by similarity; the `min_similarity` threshold is honoured on the
embedding path, while the keyword-fallback path ignores it and only
guarantees strictly positive similarities. -/
theorem search_ranked_truncated (embedQuery : Option (List ℝ))
    (parse : String → Option (List ℝ)) (query : String)
    (records : List MedRecord) (topK : Nat) (minSim : ℝ)
    (res : List SearchResult)
    (hres : searchRecords embedQuery parse query records topK minSim = .ok res) :
    res.length ≤ topK ∧
    List.Pairwise (fun x y : SearchResult => y.similarity ≤ x.similarity) res ∧
    ((∃ qe, embedQuery = some qe ∧ qe ≠ []) →
      ∀ sr ∈ res, minSim ≤ sr.similarity) ∧
    ((embedQuery = none ∨ embedQuery = some []) →
      ∀ sr ∈ res, 0 < sr.similarity) := by
  cases embedQuery with
  | none =>
    simp only [searchRecords] at hres
    obtain rfl := Except.ok.inj hres
    refine ⟨List.length_take_le _ _, pairwise_desc_take _ _, ?_, ?_⟩
    · rintro ⟨qe, hqe, -⟩
      exact Option.noConfusion hqe
    · intro _ sr hsr
      exact (mem_keywordSearch hsr).1
  | some qe =>
    simp only [searchRecords] at hres
    by_cases hq : qe.isEmpty
    · rw [if_pos hq] at hres
      obtain rfl := Except.ok.inj hres
      refine ⟨List.length_take_le _ _, pairwise_desc_take _ _, ?_, ?_⟩
      · rintro ⟨qe2, hqe2, hne⟩
        have := Option.some.inj hqe2
        rw [← this] at hne
        exact absurd (List.isEmpty_iff.mp hq) hne
      · intro _ sr hsr
        exact (mem_keywordSearch hsr).1
    · rw [if_neg hq] at hres
      cases hsc : scoreRecords parse qe minSim records with
      | error e =>
        rw [hsc] at hres
        exact Except.noConfusion hres
      | ok scored =>
        rw [hsc] at hres
        obtain rfl := Except.ok.inj hres
        refine ⟨List.length_take_le _ _, pairwise_desc_take _ _, ?_, ?_⟩
        · intro _ sr hsr
          have h1 : sr ∈ scored :=
            (List.mergeSort_perm scored descBySim).mem_iff.mp
              (List.mem_of_mem_take hsr)
          exact (mem_scoreRecords hsc h1).1
        · intro hcase
          rcases hcase with hc | hc
          · exact Option.noConfusion hc
          · have := Option.some.inj hc
            rw [this] at hq
            simp at hq

/-! ### Exclusion of records without usable embeddings (claim C10) -/

theorem embVal_of_falsy {parse : String → Option (List ℝ)} {r : MedRecord}
    (h : embTruthy r.embedding = false) : embVal parse r = none := by
  cases hemb : r.embedding with
  | missing => simp [embVal, hemb]
  | noneVal => simp [embVal, hemb]
  | str s =>
    rw [hemb] at h
    simp [embTruthy] at h
    simp [embVal, hemb, h]
  | vec v =>
    rw [hemb] at h
    simp [embTruthy] at h
    simp [embVal, hemb, h]

theorem embVal_some_truthy {parse : String → Option (List ℝ)} {r : MedRecord}
    {v : List ℝ} (h : embVal parse r = some v) :
    embTruthy r.embedding = true := by
  unfold embVal at h
  split at h
  · exact Option.noConfusion h
  · exact Option.noConfusion h
  · rename_i s heq
    by_cases hs : (s == "") = true
    · rw [if_pos hs] at h
      exact Option.noConfusion h
    · rw [heq]
      simp [embTruthy]
      simpa using hs
  · rename_i v2 heq
    by_cases hv : (v2.isEmpty) = true
    · rw [if_pos hv] at h
      exact Option.noConfusion h
    · rw [heq]
      simp [embTruthy]
      simpa using hv

/-- A record that contributes no vector is transparent to the scoring loop. -/
theorem scoreRecords_skip (parse : String → Option (List ℝ)) (qe : List ℝ)
    (minSim : ℝ) (pre post : List MedRecord) (r : MedRecord)
    (h : embVal parse r = none) :
    scoreRecords parse qe minSim (pre ++ r :: post)
      = scoreRecords parse qe minSim (pre ++ post) := by
  induction pre with
  | nil => simp only [List.nil_append, scoreRecords, h]
  | cons p pre ih =>
    show scoreRecords parse qe minSim (p :: (pre ++ r :: post))
        = scoreRecords parse qe minSim (p :: (pre ++ post))
    simp only [scoreRecords, ih]

/-- C10: on the embedding path, a record whose `embedding` field is missing,
`None`, or empty is silently excluded — deleting it from the input changes
nothing — and every returned result carries a truthy embedding field (one
whose string form also deserialized successfully). -/
theorem falsy_embedding_excluded (qe : List ℝ) (parse : String → Option (List ℝ))
    (query : String) (pre post : List MedRecord) (r : MedRecord)
    (topK : Nat) (minSim : ℝ) (hq : qe ≠ [])
    (hfalsy : embTruthy r.embedding = false) :
    searchRecords (some qe) parse query (pre ++ r :: post) topK minSim
      = searchRecords (some qe) parse query (pre ++ post) topK minSim ∧
    (∀ res, searchRecords (some qe) parse query (pre ++ r :: post) topK minSim
        = .ok res → ∀ sr ∈ res, embTruthy sr.record.embedding = true) := by
  have hskip := scoreRecords_skip parse qe minSim pre post r (embVal_of_falsy hfalsy)
  have hq2 : ¬(qe.isEmpty = true) := by
    simp [List.isEmpty_iff]
    exact hq
  constructor
  · simp only [searchRecords]
    rw [if_neg hq2, if_neg hq2, hskip]
  · intro res hres sr hsr
    simp only [searchRecords] at hres
    rw [if_neg hq2] at hres
    split at hres
    · exact Except.noConfusion hres
    · rename_i scored hsc
      obtain rfl := Except.ok.inj hres
      have h1 : sr ∈ scored :=
        (List.mergeSort_perm scored descBySim).mem_iff.mp
          (List.mem_of_mem_take hsr)
      obtain ⟨_, v, hev, _⟩ := mem_scoreRecords hsc h1
      exact embVal_some_truthy hev

/-- A record with no embedding field, used for keyword-path examples. -/
def recAlpha : MedRecord :=
  ⟨"alpha", "", "note", "2024-01-01", .missing⟩

/-- A record embedding the vector `[-1.0]`. -/
def recNeg : MedRecord :=
  ⟨"neg", "", "note", "2024-01-01", .vec [-1]⟩

/-- A record embedding the vector `[1.0]`. -/
def recPos : MedRecord :=
  ⟨"pos", "", "note", "2024-01-01", .vec [1]⟩

theorem cosine_one_neg_one : cosineSimilarity [1] [-1] = .ok (-1) := by
  have e1 : normE [(1 : ℝ)] = 1 := by simp [normE, sumSq]
  have e2 : normE [(-1 : ℝ)] = 1 := by
    have hs : sumSq [(-1 : ℝ)] = 1 := by
      simp [sumSq]
    unfold normE
    rw [hs, Real.sqrt_one]
  unfold cosineSimilarity
  rw [if_neg (by simp), if_neg (by rw [e1, e2]; norm_num), if_neg (by simp)]
  rw [e1, e2]
  norm_num [dotList]

theorem cosine_one_one : cosineSimilarity [1] [1] = .ok 1 := by
  have e1 : normE [(1 : ℝ)] = 1 := by simp [normE, sumSq]
  unfold cosineSimilarity
  rw [if_neg (by simp), if_neg (by rw [e1]; norm_num), if_neg (by simp)]
  rw [e1]
  norm_num [dotList]

theorem searchRecords_recNeg_eval :
    searchRecords (some [1]) (fun _ => none) "q" [recNeg] 5 (-2)
      = .ok [⟨recNeg, -1⟩] := by
  have hev : embVal (fun _ => none) recNeg = some [(-1 : ℝ)] := rfl
  have hscore : scoreRecords (fun _ => none) [1] (-2) [recNeg]
      = .ok [⟨recNeg, -1⟩] := by
    simp only [scoreRecords, hev, cosine_one_neg_one]
    rw [if_pos (by norm_num)]
  simp only [searchRecords]
  rw [if_neg (by simp), hscore]
  simp

theorem searchRecords_recPos_eval :
    searchRecords (some [1]) (fun _ => none) "q" [recPos] 5 0
      = .ok [⟨recPos, 1⟩] := by
  have hev : embVal (fun _ => none) recPos = some [(1 : ℝ)] := rfl
  have hscore : scoreRecords (fun _ => none) [1] 0 [recPos]
      = .ok [⟨recPos, 1⟩] := by
    simp only [scoreRecords, hev, cosine_one_one]
    rw [if_pos (by norm_num)]
  simp only [searchRecords]
  rw [if_neg (by simp), hscore]
  simp

theorem searchRecords_keyword_eval :
    searchRecords none (fun _ => none) "alpha beta" [recAlpha] 5 1
      = .ok [⟨recAlpha, 1 / 2⟩] := by
  have hterms : kwTerms "alpha beta" = ["alpha", "beta"] := rfl
  have hm : kwMatches "alpha beta" recAlpha = 1 := rfl
  simp only [searchRecords, keywordSearch]
  rw [List.filterMap_cons]
  rw [hm, hterms]
  norm_num

/-- C9 counterexample: with query embedding `[1.0]`, a record embedding
`[-1.0]` and `min_similarity = -2`, the search returns a result whose
similarity is `-1.0`, outside `[0, 1]`. -/
theorem similarity_range_counterexample :
    searchRecords (some [1]) (fun _ => none) "q" [recNeg] 5 (-2)
      = .ok [⟨recNeg, -1⟩] ∧ ((-1 : ℝ) < 0) :=
  ⟨searchRecords_recNeg_eval, by norm_num⟩

/-- Witness for C9 (amended): the returned similarity `-1` is inside
`[-1, 1]`. -/
theorem similarity_range_bounds_witness :
    -1 ≤ (SearchResult.mk recNeg (-1)).similarity ∧
      (SearchResult.mk recNeg (-1)).similarity ≤ 1 :=
  (similarity_range_bounds (some [1]) (fun _ => none) "q" [recNeg] 5 (-2)
      [⟨recNeg, -1⟩] searchRecords_recNeg_eval).1 ⟨recNeg, -1⟩ (by simp)

/-- C6 counterexample: on the keyword-fallback path the `min_similarity`
threshold is not applied: with `min_similarity = 1`, the query
`"alpha beta"` against a record containing only `"alpha"` returns a result
of similarity `1/2 < 1`. -/
theorem search_min_similarity_counterexample :
    searchRecords none (fun _ => none) "alpha beta" [recAlpha] 5 1
      = .ok [⟨recAlpha, 1 / 2⟩] ∧ ¬((1 : ℝ) ≤ 1 / 2) :=
  ⟨searchRecords_keyword_eval, by norm_num⟩

/-- Witness for C6 (amended), on a concrete embedding-path search. -/
theorem search_ranked_truncated_witness :
    ([(⟨recPos, 1⟩ : SearchResult)]).length ≤ 5 ∧
      List.Pairwise (fun x y : SearchResult => y.similarity ≤ x.similarity)
        [(⟨recPos, 1⟩ : SearchResult)] :=
  ⟨(search_ranked_truncated (some [1]) (fun _ => none) "q" [recPos] 5 0
      [⟨recPos, 1⟩] searchRecords_recPos_eval).1,
    (search_ranked_truncated (some [1]) (fun _ => none) "q" [recPos] 5 0
      [⟨recPos, 1⟩] searchRecords_recPos_eval).2.1⟩

/-- Witness for C10: deleting a record with a missing embedding field does
not change the embedding-path search result. -/
theorem falsy_embedding_excluded_witness :
    searchRecords (some [1]) (fun _ => none) "q" ([] ++ recAlpha :: []) 5 0
      = searchRecords (some [1]) (fun _ => none) "q" ([] ++ []) 5 0 :=
  (falsy_embedding_excluded [1] (fun _ => none) "q" [] [] recAlpha 5 0
    (by simp) rfl).1

end HealthDB
